import Mathlib

/-!
Verification development for the tnp-monitor repository.

The core under study is the change-detection and deduplication mechanism of
`src/app.py` (the Flask variant; `src/script.py` agrees on the store
semantics): a fingerprint store backed by a `hashes(id, hash, timestamp)`
table, a per-cycle diffing loop (`run_tnp_monitor`), and a retention purge.

Embedding choices:
- Timestamps are modelled as integers (hours on an absolute timeline).  The
  Python code stores UTC-formatted timestamp strings and compares them with
  SQL `>=` / `<`; the fixed `YYYY-MM-DD HH:MM:SS` format makes the string
  order agree with chronological order, so an integer timeline with `≤` / `<`
  is a faithful model of the comparisons.
- The `hashes` table is a list of rows; `none` models the table not yet
  existing (`CREATE TABLE IF NOT EXISTS` materialises it).
- `hashlib.md5(...).hexdigest()` is modelled by an arbitrary function
  parameter `fp : String → String`: no claim under study depends on the
  internals of the digest, so every theorem is proved for all digest
  functions, MD5 included.
- HTML pages are modelled at the granularity the extraction code observes
  them: an optional table (absent when `soup.find` / `tbody` fails) holding a
  list of rows, each row carrying the fields the extractor reads (enough
  `td` cells, an optional parsed date, optional title and href).  Per-row
  parse failures are the `none` cases, mirroring the per-row `try/except`.
- `requests` effects are modelled by a cycle-input record: a flag saying
  whether login and the two fetches succeed, and a delivery oracle
  `deliver : String → Bool` giving the outcome of each Telegram post
  (`send_telegram_message` swallows its exceptions, so control always
  returns normally to the caller whatever the outcome).
-/

namespace TNP

/-- Absolute time, in hours. -/
abbrev Time := Int

/-- `timedelta(hours=24)` — the lookback cutoff used in `run_tnp_monitor`. -/
def LOOKBACK : Time := 24

/-- `timedelta(days=7)` — the cleanup cutoff used in `run_tnp_monitor`. -/
def RETENTION : Time := 7 * 24

/-- One row of the `hashes` table: `hash TEXT NOT NULL`,
`timestamp TIMESTAMP DEFAULT (datetime('now'))`.  The `id` autoincrement
column is never read by the program and is omitted. -/
structure Row where
  hash : String
  timestamp : Time
deriving DecidableEq, Repr

/-- The `hashes` table; `none` = the table does not exist yet. -/
abbrev DB := Option (List Row)

/-- Rows of the table, empty when the table is absent. -/
def tableRows (db : DB) : List Row := db.getD []

/-- `get_recent_hashes(conn, cutoff)` (src/app.py:92-110): runs
`CREATE TABLE IF NOT EXISTS hashes ...` then
`SELECT hash FROM hashes WHERE timestamp >= cutoff` and returns the result
as a set.  Modelled as returning the deduplicated hash list together with
the database state after the idempotent schema setup. -/
def get_recent_hashes (db : DB) (cutoff : Time) : List String × DB :=
  let rows := tableRows db
  (((rows.filter (fun r => decide (cutoff ≤ r.timestamp))).map Row.hash).dedup,
   some rows)

/-- `update_hashes(conn, new_hashes)` (src/app.py:112-116): one
`INSERT INTO hashes (hash) VALUES (?)` per element of `new_hashes`; the
`timestamp` column takes its default, the insertion instant.  There is no
uniqueness constraint in the schema, so every insert appends a row. -/
def update_hashes (db : DB) (new_hashes : List String) (now : Time) : DB :=
  some (tableRows db ++ new_hashes.map (fun h => { hash := h, timestamp := now }))

/-- `cleanup_hashes(conn, cutoff)` (src/app.py:118-127):
`DELETE FROM hashes WHERE timestamp < cutoff`. -/
def cleanup_hashes (db : DB) (cutoff : Time) : DB :=
  some ((tableRows db).filter (fun r => decide (cutoff ≤ r.timestamp)))

/-- One `<tr>` of the notices table as `extract_notices` observes it
(src/app.py:144-190): whether the row has at least two `td` cells, the
parsed post datetime (`none` when both the `data-order` and the visible-text
parse fail), and the title/href of the `<a>` inside the `<h6>` (`none` when
either tag is missing). -/
structure NoticeRow where
  enoughTds : Bool
  postDatetime : Option Time
  titleHref : Option (String × String)
deriving DecidableEq, Repr

/-- One `<tr>` of the job-listings table as `extract_companies` observes it
(src/app.py:215-258): whether the row has at least three `td` cells, the
parsed posting date (midnight-combined; `none` when `data-order` is missing
or unparseable), the company name, and the href of the `Apply` link
(`none` when no such link exists). -/
structure CompanyRow where
  enoughTds : Bool
  postDate : Option Time
  companyName : String
  applyHref : Option String
deriving DecidableEq, Repr

/-- Link absolutisation shared by both extractors (src/app.py:183-186). -/
def full_link (href : String) : String :=
  if href.startsWith "/" then "https://tp.bitmesra.co.in" ++ href
  else "https://tp.bitmesra.co.in/" ++ href

/-- The notice message f-string (src/app.py:188). -/
def notice_message (title href : String) (d : Time) : String :=
  "📢 *New Notice:*\n🔹 " ++ title ++ "\n🔗 " ++ full_link href
    ++ "\n📅 " ++ toString d

/-- The company message f-string (src/app.py:256). -/
def company_message (name : String) (d : Time) (link : String) : String :=
  "🏢 *New Company Listed:*\n🔹 " ++ name ++ "\n📅 " ++ toString d
    ++ "\n🔗 " ++ link

/-- The body of the per-row loop of `extract_notices` (src/app.py:144-190):
skip rows with fewer than two cells, skip rows whose date does not parse,
skip rows dated strictly before the cutoff — all before the message is built
and hashed — then build the message and its fingerprint. -/
def rowToItem (fp : String → String) (cutoff : Time) (row : NoticeRow) :
    Option (String × String) :=
  if row.enoughTds = false then none
  else
    match row.postDatetime with
    | none => none
    | some d =>
      if d < cutoff then none
      else
        match row.titleHref with
        | none => none
        | some (title, href) =>
          let msg := notice_message title href d
          some (msg, fp msg)

/-- The body of the per-row loop of `extract_companies`
(src/app.py:215-258). -/
def companyToItem (fp : String → String) (cutoff : Time) (row : CompanyRow) :
    Option (String × String) :=
  if row.enoughTds = false then none
  else
    match row.postDate with
    | none => none
    | some d =>
      if d < cutoff then none
      else
        let link := match row.applyHref with
          | none => "No link available"
          | some href => full_link href
        let msg := company_message row.companyName d link
        some (msg, fp msg)

/-- `extract_notices(content, cutoff, ist)` (src/app.py:130-195): an absent
table or `tbody` yields the empty list; otherwise each row is processed
independently. -/
def extract_notices (fp : String → String) (page : Option (List NoticeRow))
    (cutoff : Time) : List (String × String) :=
  match page with
  | none => []
  | some rows => rows.filterMap (rowToItem fp cutoff)

/-- `extract_companies(content, cutoff, ist)` (src/app.py:198-263). -/
def extract_companies (fp : String → String) (page : Option (List CompanyRow))
    (cutoff : Time) : List (String × String) :=
  match page with
  | none => []
  | some rows => rows.filterMap (companyToItem fp cutoff)

/-- The module-level `job_status` dictionary (src/app.py:47-52). -/
structure JobStatus where
  last_run : Option Time
  last_success : Option Time
  error_count : Nat
  is_running : Bool
deriving DecidableEq, Repr

/-- The external world one invocation of `run_tnp_monitor` interacts with:
whether login and the two page fetches succeed, the parsed content of the
two pages, and the delivery outcome of each Telegram post. -/
structure CycleInput where
  fetchOk : Bool
  noticesPage : Option (List NoticeRow)
  companiesPage : Option (List CompanyRow)
  deliver : String → Bool

/-- What one invocation of `run_tnp_monitor` produces: the job status and
database afterwards, the item notifications attempted (message paired with
its delivery outcome, in order), and whether the operator error
notification path was taken. -/
structure CycleResult where
  status : JobStatus
  db : DB
  sent : List (String × Bool)
  errorReported : Bool
deriving Repr

/-- `send_telegram_message(message)` (src/app.py:266-276): posts the message
and catches every exception internally, so it always returns control to the
caller; the model reports the delivery outcome, which the caller ignores. -/
def send_telegram_message (deliver : String → Bool) (msg : String) : Bool :=
  deliver msg

/-- The diffing/notification loop of `run_tnp_monitor` (src/app.py:310-314):
for each extracted item whose hash is not among the stored hashes, call
`send_telegram_message` and add the hash to the `new_hashes` set; the
delivery outcome is not inspected.  Returns the attempted notifications in
order and the `new_hashes` set (as a duplicate-free list). -/
def notify_and_collect (deliver : String → Bool) (stored : List String) :
    List (String × String) → List (String × Bool) × List String
  | [] => ([], [])
  | (msg, h) :: rest =>
    if h ∈ stored then notify_and_collect deliver stored rest
    else
      let ok := send_telegram_message deliver msg
      let res := notify_and_collect deliver stored rest
      ((msg, ok) :: res.1, res.2.insert h)

/-- `run_tnp_monitor()` (src/app.py:279-339), as a function of the ambient
inputs.  Mirrors, in order: the `is_running` guard (immediate return), the
setting of `is_running` and `last_run`, the try-block (login, fetches,
extraction with `cutoff = now - 24h`, recent-hash lookup with the same
cutoff, the notification loop, the conditional `update_hashes`, the
`cleanup_hashes` with `now - 7d`, the success bookkeeping), the except-block
(error counter increment plus best-effort operator notification), and the
finally-block (clearing `is_running`). -/
def run_tnp_monitor (fp : String → String) (now : Time) (st : JobStatus)
    (db : DB) (inp : CycleInput) : CycleResult :=
  if st.is_running then { status := st, db := db, sent := [], errorReported := false }
  else
    let st1 : JobStatus := { st with is_running := true, last_run := some now }
    if inp.fetchOk then
      let cutoff := now - LOOKBACK
      let recent_notices := extract_notices fp inp.noticesPage cutoff
      let recent_companies := extract_companies fp inp.companiesPage cutoff
      let looked := get_recent_hashes db cutoff
      let outcome := notify_and_collect inp.deliver looked.1
        (recent_notices ++ recent_companies)
      let db2 := if outcome.2 = [] then looked.2
        else update_hashes looked.2 outcome.2 now
      let db3 := cleanup_hashes db2 (now - RETENTION)
      let stDone : JobStatus :=
        { st1 with
          last_success := some now
          error_count := 0
          is_running := false }
      { status := stDone, db := db3, sent := outcome.1, errorReported := false }
    else
      let stErr : JobStatus :=
        { st1 with
          error_count := st1.error_count + 1
          is_running := false }
      { status := stErr, db := db, sent := [], errorReported := true }

/-! ## Helper lemmas -/

/-- Hashes collected by the notification loop were not among the stored
hashes: the loop only adds a hash after the `item_hash not in stored_hashes`
test succeeds. -/
theorem notify_snd_not_stored (deliver : String → Bool) (stored : List String) :
    ∀ (items : List (String × String)) (h : String),
      h ∈ (notify_and_collect deliver stored items).2 → h ∉ stored := by
  intro items
  induction items with
  | nil => simp [notify_and_collect]
  | cons it rest ih =>
    obtain ⟨msg, hh⟩ := it
    intro h hmem
    by_cases hs : hh ∈ stored
    · exact ih h (by simpa [notify_and_collect, hs] using hmem)
    · simp only [notify_and_collect, if_neg hs] at hmem
      rcases List.mem_insert_iff.1 hmem with rfl | hmem'
      · exact hs
      · exact ih h hmem'

/-- The collected hash list is duplicate-free (`new_hashes` is a Python
set). -/
theorem notify_snd_nodup (deliver : String → Bool) (stored : List String) :
    ∀ items : List (String × String),
      (notify_and_collect deliver stored items).2.Nodup := by
  intro items
  induction items with
  | nil => simp [notify_and_collect]
  | cons it rest ih =>
    obtain ⟨msg, hh⟩ := it
    by_cases hs : hh ∈ stored
    · simpa [notify_and_collect, hs] using ih
    · simp only [notify_and_collect, if_neg hs]
      exact List.Nodup.insert ih

/-- The collected hash list does not depend on the delivery outcomes. -/
theorem notify_snd_deliver_irrelevant (d1 d2 : String → Bool)
    (stored : List String) :
    ∀ items : List (String × String),
      (notify_and_collect d1 stored items).2
        = (notify_and_collect d2 stored items).2 := by
  intro items
  induction items with
  | nil => rfl
  | cons it rest ih =>
    obtain ⟨msg, hh⟩ := it
    by_cases hs : hh ∈ stored
    · simpa [notify_and_collect, hs] using ih
    · simp only [notify_and_collect, if_neg hs]
      rw [ih]

/-- Every item whose hash is not stored contributes its hash to the
collected list. -/
theorem notify_snd_mem (deliver : String → Bool) (stored : List String) :
    ∀ (items : List (String × String)) (msg h : String),
      (msg, h) ∈ items → h ∉ stored →
      h ∈ (notify_and_collect deliver stored items).2 := by
  intro items
  induction items with
  | nil => simp
  | cons it rest ih =>
    obtain ⟨m0, h0⟩ := it
    intro msg h hmem hns
    rcases List.mem_cons.1 hmem with heq | htl
    · obtain ⟨rfl, rfl⟩ := Prod.mk.injEq .. ▸ heq
      have hs : h ∉ stored := hns
      simp only [notify_and_collect, if_neg hs]
      exact List.mem_insert_self h _
    · by_cases hs : h0 ∈ stored
      · simpa [notify_and_collect, hs] using ih msg h htl hns
      · simp only [notify_and_collect, if_neg hs]
        exact List.mem_insert_of_mem (ih msg h htl hns)

/-- A row surviving the cleanup filter was present before the cleanup. -/
theorem mem_of_mem_cleanup {d : DB} {c : Time} {r : Row}
    (h : r ∈ tableRows (cleanup_hashes d c)) : r ∈ tableRows d := by
  simp only [cleanup_hashes, tableRows, Option.getD_some,
    List.mem_filter] at h
  exact h.1

/-! ## Claims -/

/-- C9: if the running-cycle guard flag is set when a detection cycle is
triggered, the trigger is a no-op — the function returns immediately with
the job status, the store, the notification record and the error flag all
untouched; the trigger is dropped, not queued. -/
theorem guard_trigger_noop (fp : String → String) (now : Time)
    (st : JobStatus) (db : DB) (inp : CycleInput)
    (hrun : st.is_running = true) :
    run_tnp_monitor fp now st db inp
      = { status := st, db := db, sent := [], errorReported := false } := by
  simp [run_tnp_monitor, hrun]

/-- Witness for C9 at a concrete instance. -/
theorem guard_trigger_noop_witness :
    (⟨none, none, 0, true⟩ : JobStatus).is_running = true ∧
    run_tnp_monitor id 0 ⟨none, none, 0, true⟩ none
        ⟨true, none, none, fun _ => true⟩
      = { status := ⟨none, none, 0, true⟩, db := none, sent := [],
          errorReported := false } :=
  ⟨rfl, guard_trigger_noop id 0 ⟨none, none, 0, true⟩ none
    ⟨true, none, none, fun _ => true⟩ rfl⟩

/-- C10: every invocation of the detection cycle that passes the guard (and
hence sets the running flag) leaves the flag cleared on return, on the
success path and on the error path alike, so a failed cycle can never leave
the guard stuck. -/
theorem guard_always_cleared (fp : String → String) (now : Time)
    (st : JobStatus) (db : DB) (inp : CycleInput)
    (hidle : st.is_running = false) :
    (run_tnp_monitor fp now st db inp).status.is_running = false := by
  obtain ⟨fOk, np, cp, deliver⟩ := inp
  cases fOk <;> simp [run_tnp_monitor, hidle]

/-- Witness for C10 at a concrete instance (an error-path run). -/
theorem guard_always_cleared_witness :
    (⟨none, none, 0, false⟩ : JobStatus).is_running = false ∧
    (run_tnp_monitor id 0 ⟨none, none, 0, false⟩ none
        ⟨false, none, none, fun _ => true⟩).status.is_running = false :=
  ⟨rfl, guard_always_cleared id 0 ⟨none, none, 0, false⟩ none
    ⟨false, none, none, fun _ => true⟩ rfl⟩

/-- C6: the recent query returns exactly the hashes of rows whose timestamp
is at or after the window start (so an entry recorded before the window
start never appears), it materialises the table when absent, and on an
absent table it returns the empty set rather than an error. -/
theorem recent_query_exact_window (db : DB) (cutoff : Time) :
    (∀ h, h ∈ (get_recent_hashes db cutoff).1 ↔
        ∃ r, r ∈ tableRows db ∧ r.hash = h ∧ cutoff ≤ r.timestamp)
    ∧ (get_recent_hashes db cutoff).2 = some (tableRows db)
    ∧ (get_recent_hashes none cutoff).1 = [] := by
  refine ⟨fun h => ?_, rfl, rfl⟩
  simp only [get_recent_hashes, List.mem_dedup, List.mem_map,
    List.mem_filter, decide_eq_true_eq]
  constructor
  · rintro ⟨r, ⟨hr, ht⟩, rfl⟩
    exact ⟨r, hr, rfl, ht⟩
  · rintro ⟨r, hr, rfl, ht⟩
    exact ⟨r, ⟨hr, ht⟩, rfl⟩

/-- C7: after the purge, a row is present exactly when it was present
before with a timestamp at or after the cutoff (rows before the cutoff are
gone, rows at or after it are untouched), and a purge with no qualifying
rows leaves the table rows unchanged. -/
theorem purge_exact (db : DB) (cutoff : Time) :
    (∀ r, r ∈ tableRows (cleanup_hashes db cutoff) ↔
        r ∈ tableRows db ∧ cutoff ≤ r.timestamp)
    ∧ ((∀ r ∈ tableRows db, cutoff ≤ r.timestamp) →
        cleanup_hashes db cutoff = some (tableRows db)) := by
  constructor
  · intro r
    simp [cleanup_hashes, tableRows, List.mem_filter]
  · intro hall
    simp only [cleanup_hashes]
    congr 1
    exact List.filter_eq_self.mpr fun r hr => by
      simpa using hall r hr

/-- Witness for C7 at a concrete instance (a purge with no qualifying
rows). -/
theorem purge_exact_witness :
    (∀ r ∈ tableRows (some [⟨"a", 3⟩]), (2 : Time) ≤ r.timestamp) ∧
    cleanup_hashes (some [⟨"a", 3⟩]) 2 = some (tableRows (some [⟨"a", 3⟩])) :=
  ⟨by decide, (purge_exact (some [⟨"a", 3⟩]) 2).2 (by decide)⟩

/-- C1: evaluation at the failing input.  A fingerprint recorded at hour 52
is still inside the 7-day retention window of a cycle run at hour 100, yet
the cycle's deduplication lookup — issued with cutoff `now - LOOKBACK`
(hour 76), not `now - RETENTION` (hour minus 68) — returns nothing, and the
identical item (publish timestamp hour 99, within the last day) is notified
again instead of being suppressed. -/
theorem dedup_lookup_uses_lookback_eval :
    ((100 : Time) - RETENTION ≤ 52)
    ∧ (get_recent_hashes (some [⟨notice_message "T" "/n1" 99, 52⟩])
        (100 - LOOKBACK)).1 = []
    ∧ (run_tnp_monitor id 100 ⟨none, none, 0, false⟩
        (some [⟨notice_message "T" "/n1" 99, 52⟩])
        ⟨true, some [⟨true, some 99, some ("T", "/n1")⟩], none,
          fun _ => true⟩).sent.length = 1 := by
  decide

/-- C2, counterexample: inserting a digest that is already present (and
still active — both timestamps qualify for any recent window up to hour 0)
is not a no-op: the table has no uniqueness constraint, so a second row
with the same hash appears. -/
theorem duplicate_insert_adds_second_row :
    update_hashes (some [⟨"h", 0⟩]) ["h"] 5 = some [⟨"h", 0⟩, ⟨"h", 5⟩]
    ∧ ((tableRows (update_hashes (some [⟨"h", 0⟩]) ["h"] 5)).filter
        (fun r => r.hash == "h")).length = 2 := by
  decide

/-- C2, amended: the schema enforces no uniqueness; deduplication of
inserts happens only in the caller, and only against the cycle's own
lookup: the batch a cycle hands to `update_hashes` is duplicate-free and
disjoint from the hashes the cycle's recent-hash lookup returned, so every
row present after a cycle is either an old row or a fresh row whose hash
the lookup did not contain. -/
theorem cycle_insert_batch_fresh (fp : String → String) (now : Time)
    (st : JobStatus) (db : DB) (np : Option (List NoticeRow))
    (cp : Option (List CompanyRow)) (deliver : String → Bool)
    (hidle : st.is_running = false) :
    (∀ h, h ∈ (notify_and_collect deliver
          (get_recent_hashes db (now - LOOKBACK)).1
          (extract_notices fp np (now - LOOKBACK)
            ++ extract_companies fp cp (now - LOOKBACK))).2 →
        h ∉ (get_recent_hashes db (now - LOOKBACK)).1)
    ∧ (notify_and_collect deliver (get_recent_hashes db (now - LOOKBACK)).1
        (extract_notices fp np (now - LOOKBACK)
          ++ extract_companies fp cp (now - LOOKBACK))).2.Nodup
    ∧ ∀ r ∈ tableRows
          (run_tnp_monitor fp now st db ⟨true, np, cp, deliver⟩).db,
        r ∈ tableRows db ∨
          (r.timestamp = now
            ∧ r.hash ∉ (get_recent_hashes db (now - LOOKBACK)).1) := by
  refine ⟨notify_snd_not_stored deliver _ _, notify_snd_nodup deliver _ _,
    fun r hr => ?_⟩
  simp only [run_tnp_monitor, hidle, Bool.false_eq_true, if_false,
    if_true] at hr
  set stored := (get_recent_hashes db (now - LOOKBACK)).1 with hstored
  set items := extract_notices fp np (now - LOOKBACK)
    ++ extract_companies fp cp (now - LOOKBACK) with hitems
  have hr' := mem_of_mem_cleanup hr
  by_cases hempty : (notify_and_collect deliver stored items).2 = []
  · rw [if_pos hempty] at hr'
    exact Or.inl (by simpa [get_recent_hashes, tableRows] using hr')
  · rw [if_neg hempty] at hr'
    simp only [update_hashes, get_recent_hashes, tableRows, Option.getD_some,
      List.mem_append, List.mem_map] at hr'
    rcases hr' with hold | ⟨h, hh, rfl⟩
    · exact Or.inl hold
    · exact Or.inr ⟨rfl, notify_snd_not_stored deliver stored items h hh⟩

/-- Witness for C2's amended statement at a concrete instance. -/
theorem cycle_insert_batch_fresh_witness :
    (⟨none, none, 0, false⟩ : JobStatus).is_running = false ∧
    ((⟨"x", 5⟩ : Row) ∈ tableRows
        (run_tnp_monitor id 5 ⟨none, none, 0, false⟩ (some [])
          ⟨true, some [⟨true, some 5, some ("T", "/n")⟩], none,
            fun _ => true⟩).db →
      (⟨"x", 5⟩ : Row) ∈ tableRows (some ([] : List Row)) ∨
        ((⟨"x", 5⟩ : Row).timestamp = 5
          ∧ (⟨"x", 5⟩ : Row).hash ∉
            (get_recent_hashes (some []) (5 - LOOKBACK)).1)) :=
  ⟨rfl,
    (cycle_insert_batch_fresh id 5 ⟨none, none, 0, false⟩ (some [])
      (some [⟨true, some 5, some ("T", "/n")⟩]) none
      (fun _ => true) rfl).2.2 ⟨"x", 5⟩⟩

/-- C5, counterexample: a cycle whose pages are malformed (neither the
notices table nor the job-listings table is found) does not abort — it
reports no error, and it does mutate the fingerprint store: the retention
purge still runs and deletes the expired row. -/
theorem malformed_page_still_purges :
    (run_tnp_monitor id 0 ⟨none, none, 0, false⟩ (some [⟨"old", -200⟩])
        ⟨true, none, none, fun _ => true⟩).db = some []
    ∧ (run_tnp_monitor id 0 ⟨none, none, 0, false⟩ (some [⟨"old", -200⟩])
        ⟨true, none, none, fun _ => true⟩).errorReported = false
    ∧ (some [] : DB) ≠ some [⟨"old", -200⟩] := by
  decide

/-- C5, amended: a cycle that fails during login or fetching (the calls
that raise before the database is touched) performs no store mutation at
all — the store is returned exactly as it was, no notification is
attempted, the error is reported, the consecutive-error counter is
incremented, and the cycle returns to idle. -/
theorem fetch_failure_no_store_mutation (fp : String → String) (now : Time)
    (st : JobStatus) (db : DB) (np : Option (List NoticeRow))
    (cp : Option (List CompanyRow)) (deliver : String → Bool)
    (hidle : st.is_running = false) :
    run_tnp_monitor fp now st db ⟨false, np, cp, deliver⟩
      = { status := ⟨some now, st.last_success, st.error_count + 1, false⟩,
          db := db, sent := [], errorReported := true } := by
  obtain ⟨lr, ls, ec, ir⟩ := st
  simp only [JobStatus.is_running] at hidle
  subst hidle
  rfl

/-- Witness for C5's amended statement at a concrete instance. -/
theorem fetch_failure_no_store_mutation_witness :
    (⟨none, none, 3, false⟩ : JobStatus).is_running = false ∧
    run_tnp_monitor id 7 ⟨none, none, 3, false⟩ (some [⟨"a", 1⟩])
        ⟨false, none, none, fun _ => true⟩
      = { status := ⟨some 7, none, 4, false⟩, db := some [⟨"a", 1⟩],
          sent := [], errorReported := true } :=
  ⟨rfl, fetch_failure_no_store_mutation id 7 ⟨none, none, 3, false⟩
    (some [⟨"a", 1⟩]) none none (fun _ => true) rfl⟩

/-- C4: the batch of fingerprints a cycle records is independent of the
notification delivery outcomes — `send_telegram_message` swallows its
failures, and the caller adds the hash after the call without inspecting
any result.  In particular a new item whose delivery fails still has its
fingerprint collected, and the store a cycle leaves behind is the same for
any two delivery behaviours. -/
theorem fingerprint_recorded_regardless_of_delivery
    (d1 d2 : String → Bool) (stored : List String)
    (items : List (String × String)) (fp : String → String) (now : Time)
    (st : JobStatus) (db : DB) (np : Option (List NoticeRow))
    (cp : Option (List CompanyRow)) :
    (notify_and_collect d1 stored items).2
        = (notify_and_collect d2 stored items).2
    ∧ (∀ msg h, (msg, h) ∈ items → h ∉ stored →
        h ∈ (notify_and_collect d1 stored items).2)
    ∧ (run_tnp_monitor fp now st db ⟨true, np, cp, d1⟩).db
        = (run_tnp_monitor fp now st db ⟨true, np, cp, d2⟩).db := by
  refine ⟨notify_snd_deliver_irrelevant d1 d2 stored items,
    fun msg h hmem hns => notify_snd_mem d1 stored items msg h hmem hns, ?_⟩
  by_cases hg : st.is_running
  · simp [run_tnp_monitor, hg]
  · simp only [run_tnp_monitor, hg, Bool.false_eq_true, if_false, if_true]
    rw [notify_snd_deliver_irrelevant d1 d2]

/-- Witness for C4 at a concrete instance: the delivery of the only item
fails (`fun _ => false`), yet its fingerprint is in the collected batch. -/
theorem fingerprint_recorded_regardless_of_delivery_witness :
    ("m", "h") ∈ [("m", "h")] ∧ ("h" : String) ∉ ([] : List String) ∧
    "h" ∈ (notify_and_collect (fun _ => false) [] [("m", "h")]).2 :=
  ⟨by decide, by decide,
    (fingerprint_recorded_regardless_of_delivery (fun _ => false)
      (fun _ => true) [] [("m", "h")] id 0 ⟨none, none, 0, false⟩ none
      none none).2.1 "m" "h" (by decide) (by decide)⟩

/-- A notice row dated strictly before the cutoff yields nothing: the date
test precedes the message construction and the hashing. -/
theorem rowToItem_stale (fp : String → String) (cutoff : Time)
    (row : NoticeRow) (d : Time) (hd : row.postDatetime = some d)
    (hlt : d < cutoff) : rowToItem fp cutoff row = none := by
  unfold rowToItem
  rw [hd]
  by_cases he : row.enoughTds = false <;> simp [he, hlt]

/-- C8: a candidate notice whose parsed publish time is strictly older than
`now - LOOKBACK` contributes nothing whatsoever to the cycle: a run over a
page containing the stale row is identical — same notifications, same
store, same status — to the run over the page without it.  It is never
fingerprinted, stored, or notified, even when its fingerprint is absent
from the store. -/
theorem stale_item_never_processed (fp : String → String) (now : Time)
    (st : JobStatus) (db : DB) (cp : Option (List CompanyRow))
    (deliver : String → Bool) (rows₁ rows₂ : List NoticeRow)
    (row : NoticeRow) (d : Time) (hd : row.postDatetime = some d)
    (hstale : d < now - LOOKBACK) :
    run_tnp_monitor fp now st db
        ⟨true, some (rows₁ ++ row :: rows₂), cp, deliver⟩
      = run_tnp_monitor fp now st db
        ⟨true, some (rows₁ ++ rows₂), cp, deliver⟩ := by
  have hext : extract_notices fp (some (rows₁ ++ row :: rows₂))
      (now - LOOKBACK) = extract_notices fp (some (rows₁ ++ rows₂))
      (now - LOOKBACK) := by
    simp [extract_notices, List.filterMap_append,
      rowToItem_stale fp (now - LOOKBACK) row d hd hstale]
  simp only [run_tnp_monitor]
  rw [hext]

/-- Witness for C8 at a concrete instance. -/
theorem stale_item_never_processed_witness :
    (⟨true, some 0, some ("T", "/x")⟩ : NoticeRow).postDatetime = some 0 ∧
    ((0 : Time) < 100 - LOOKBACK) ∧
    run_tnp_monitor id 100 ⟨none, none, 0, false⟩ (some [])
        ⟨true, some ([] ++ (⟨true, some 0, some ("T", "/x")⟩ : NoticeRow)
          :: []), none, fun _ => true⟩
      = run_tnp_monitor id 100 ⟨none, none, 0, false⟩ (some [])
        ⟨true, some ([] ++ []), none, fun _ => true⟩ :=
  ⟨rfl, by decide,
    stale_item_never_processed id 100 ⟨none, none, 0, false⟩ (some [])
      none (fun _ => true) [] [] ⟨true, some 0, some ("T", "/x")⟩ 0 rfl
      (by decide)⟩

/-- C3, counterexample: a future-dated notice (publish hour 25) is notified
by a cycle at hour 0 and notified *again* by a cycle at hour 48, although
its fingerprint (recorded at hour 0) is still well inside the 7-day
retention window at hour 48 — the 24-hour dedup lookup no longer sees it.
Identical payload, two notifications across the retention window. -/
theorem renotified_within_retention :
    (run_tnp_monitor id 0 ⟨none, none, 0, false⟩ (some [])
        ⟨true, some [⟨true, some 25, some ("T", "/n")⟩], none,
          fun _ => true⟩).sent.length = 1
    ∧ (run_tnp_monitor id 48
        (run_tnp_monitor id 0 ⟨none, none, 0, false⟩ (some [])
          ⟨true, some [⟨true, some 25, some ("T", "/n")⟩], none,
            fun _ => true⟩).status
        (run_tnp_monitor id 0 ⟨none, none, 0, false⟩ (some [])
          ⟨true, some [⟨true, some 25, some ("T", "/n")⟩], none,
            fun _ => true⟩).db
        ⟨true, some [⟨true, some 25, some ("T", "/n")⟩], none,
          fun _ => true⟩).sent.length = 1
    ∧ ((48 : Time) - RETENTION ≤ 0) := by
  decide

/-- C3, amended: a payload is notified at most once while its stored
fingerprint remains inside the cycle's 24-hour lookup window (not the full
retention window): for two cycles over the identical single-notice page
where the second cycle runs at most `LOOKBACK` after the first, the first
notifies exactly once and the second not at all, for any digest function
and any delivery outcomes. -/
theorem consecutive_cycles_notify_once
    (fp : String → String) (dl1 dl2 : String → Bool) (d now1 now2 : Time)
    (title href : String) (st : JobStatus)
    (h0 : st.is_running = false)
    (h1 : now1 - LOOKBACK ≤ d)
    (h2 : now2 - LOOKBACK ≤ now1) :
    (run_tnp_monitor fp now1 st (some [])
        ⟨true, some [⟨true, some d, some (title, href)⟩], none,
          dl1⟩).sent.length = 1
    ∧ (run_tnp_monitor fp now2
        (run_tnp_monitor fp now1 st (some [])
          ⟨true, some [⟨true, some d, some (title, href)⟩], none,
            dl1⟩).status
        (run_tnp_monitor fp now1 st (some [])
          ⟨true, some [⟨true, some d, some (title, href)⟩], none,
            dl1⟩).db
        ⟨true, some [⟨true, some d, some (title, href)⟩], none,
          dl2⟩).sent.length = 0 := by
  have hnl1 : ¬ d < now1 - LOOKBACK := not_lt.2 h1
  have hret0 : (0 : Time) ≤ RETENTION := by decide
  have h2' : now2 ≤ now1 + LOOKBACK := by linarith
  have hr1 : run_tnp_monitor fp now1 st (some [])
      ⟨true, some [⟨true, some d, some (title, href)⟩], none, dl1⟩
      = { status := ⟨some now1, some now1, 0, false⟩,
          db := some [⟨fp (notice_message title href d), now1⟩],
          sent := [(notice_message title href d,
            dl1 (notice_message title href d))],
          errorReported := false } := by
    simp [run_tnp_monitor, h0, extract_notices, extract_companies,
      rowToItem, get_recent_hashes, tableRows, notify_and_collect,
      send_telegram_message, update_hashes, cleanup_hashes, hnl1, hret0,
      List.insert]
  refine ⟨by rw [hr1]; rfl, ?_⟩
  rw [hr1]
  by_cases hd2 : d < now2 - LOOKBACK <;>
    simp [run_tnp_monitor, extract_notices, extract_companies, rowToItem,
      get_recent_hashes, tableRows, notify_and_collect,
      send_telegram_message, update_hashes, cleanup_hashes, hd2, h2, h2',
      List.insert, List.dedup_cons_of_not_mem]

/-- Witness for C3's amended statement at a concrete instance (second
cycle one hour after the first). -/
theorem consecutive_cycles_notify_once_witness :
    (⟨none, none, 0, false⟩ : JobStatus).is_running = false ∧
    ((0 : Time) - LOOKBACK ≤ 0) ∧ ((1 : Time) - LOOKBACK ≤ 0) ∧
    ((run_tnp_monitor id 0 ⟨none, none, 0, false⟩ (some [])
        ⟨true, some [⟨true, some 0, some ("t", "/x")⟩], none,
          fun _ => true⟩).sent.length = 1
    ∧ (run_tnp_monitor id 1
        (run_tnp_monitor id 0 ⟨none, none, 0, false⟩ (some [])
          ⟨true, some [⟨true, some 0, some ("t", "/x")⟩], none,
            fun _ => true⟩).status
        (run_tnp_monitor id 0 ⟨none, none, 0, false⟩ (some [])
          ⟨true, some [⟨true, some 0, some ("t", "/x")⟩], none,
            fun _ => true⟩).db
        ⟨true, some [⟨true, some 0, some ("t", "/x")⟩], none,
          fun _ => false⟩).sent.length = 0) :=
  ⟨rfl, by decide, by decide,
    consecutive_cycles_notify_once id (fun _ => true) (fun _ => false)
      0 0 1 "t" "/x" ⟨none, none, 0, false⟩ rfl (by decide) (by decide)⟩

end TNP
